import Mathlib

/-
Verification of the soldier behavior core of the Banjo game: the soldier
finite-state machine (soldier_fsm.py), the perception guards and their side
effects, the accuracy curve (soldier_interface.py), the squad coordinator
(platoon.py) and the player damage handler (banjo_player.py), shallowly
embedded as pure Lean functions over explicit state records.
-/

namespace Banjo

/-- Facing constant from game_constants/world_constant.py. -/
def RIGHT_FACING : Int := 0

/-- Facing constant from game_constants/world_constant.py. -/
def LEFT_FACING : Int := 1

/-- The states of SoldierFSM (soldier_fsm.py). -/
inductive SState where
  | idle
  | walk
  | run
  | shoot
  | reload
  | melee
  | alert
  | hurt
  | dead
  | at_ease
deriving DecidableEq, Repr

/-- The keyword arguments passed to SoldierFSM.cycle by
Soldier.update_state (soldier_interface.py / soldier_1.py). -/
structure Signals where
  soldier_coordinate : Int × Int
  soldier_facing_direction : Int
  enemy_coordinate : Int × Int
  enemy_direction : Int
  enemy_hitting : Bool
  enemy_barking : Bool
  enemy_hp : Int
deriving DecidableEq, Repr

/-- The mutable state of a SoldierFSM instance (soldier_fsm.py __init__),
together with the current state of the machine. -/
structure SoldierFSM where
  hp : Int
  shooting_range : Int
  melee_range : Int
  hearing_range : Int
  mag_size : Int
  current_mag : Int
  patrol_checkpoints : List Int
  chase_to : Option Int
  take_a_break : Bool
  reload_done : Bool
  alert_done : Bool
  is_recovered : Bool
  state : SState
deriving DecidableEq, Repr

/-- SoldierFSM.__init__: current_mag starts at mag_size, the machine starts
in the idle state, the one-shot flags start cleared and is_recovered starts
true. -/
def SoldierFSM.init (hp shooting_range melee_range hearing_range mag_size : Int) :
    SoldierFSM :=
  { hp := hp
    shooting_range := shooting_range
    melee_range := melee_range
    hearing_range := hearing_range
    mag_size := mag_size
    current_mag := mag_size
    patrol_checkpoints := []
    chase_to := none
    take_a_break := false
    reload_done := false
    alert_done := false
    is_recovered := true
    state := SState.idle }

/-- Record update helper: a fired transition only changes the machine state. -/
def setState (m : SoldierFSM) (s : SState) : SoldierFSM :=
  { m with state := s }

/-
Each guard of the Python FSM is a method that returns a bool and may mutate
the instance.  Every guard is embedded as a pair of functions: the B form is
the returned bool and the S form is the instance after the guard ran (both
computed from the state in which the guard is evaluated).
-/

/-- SoldierFSM.enemy_dead. -/
def enemy_deadB (sig : Signals) : Bool :=
  decide (sig.enemy_hp ≤ 0)

/-- SoldierFSM.is_dying. -/
def is_dyingB (m : SoldierFSM) : Bool :=
  decide (m.hp ≤ 0)

/-- SoldierFSM.mag_empty. -/
def mag_emptyB (m : SoldierFSM) : Bool :=
  decide (m.current_mag = 0)

/-- SoldierFSM.has_recovered. -/
def has_recoveredB (m : SoldierFSM) : Bool :=
  m.is_recovered

/-- SoldierFSM.can_take_a_break. -/
def can_take_a_breakB (m : SoldierFSM) : Bool :=
  m.take_a_break

/-- SoldierFSM.can_hear, returned value. -/
def can_hearB (m : SoldierFSM) (sig : Signals) : Bool :=
  decide (|sig.soldier_coordinate.1 - sig.enemy_coordinate.1| ≤ m.hearing_range) &&
    sig.enemy_barking

/-- SoldierFSM.can_hear, instance after evaluation: on true it records the
enemy x-coordinate as the chase target. -/
def can_hearS (m : SoldierFSM) (sig : Signals) : SoldierFSM :=
  if can_hearB m sig then { m with chase_to := some sig.enemy_coordinate.1 } else m

/-- SoldierFSM.finish_alert, returned value: the prior alert_done flag. -/
def finish_alertB (m : SoldierFSM) : Bool :=
  m.alert_done

/-- SoldierFSM.finish_alert, instance after evaluation: consumes the flag. -/
def finish_alertS (m : SoldierFSM) : SoldierFSM :=
  if m.alert_done then { m with alert_done := false } else m

/-- SoldierFSM.can_patrol, returned value: checkpoints exist and the last
checkpoint is farther than 10 units. -/
def can_patrolB (m : SoldierFSM) (sig : Signals) : Bool :=
  match m.patrol_checkpoints.getLast? with
  | none => false
  | some c => decide (10 < |sig.soldier_coordinate.1 - c|)

/-- SoldierFSM.can_patrol, instance after evaluation: within 10 units of the
last checkpoint it sets take_a_break and returns false. -/
def can_patrolS (m : SoldierFSM) (sig : Signals) : SoldierFSM :=
  match m.patrol_checkpoints.getLast? with
  | none => m
  | some c =>
    if 10 < |sig.soldier_coordinate.1 - c| then m else { m with take_a_break := true }

/-- SoldierFSM.can_chase, returned value. -/
def can_chaseB (m : SoldierFSM) (sig : Signals) : Bool :=
  match m.chase_to with
  | none => false
  | some t => decide (10 < |sig.soldier_coordinate.1 - t|)

/-- SoldierFSM.can_chase, instance after evaluation: clears the chase target
when the soldier is within 10 units of it. -/
def can_chaseS (m : SoldierFSM) (sig : Signals) : SoldierFSM :=
  match m.chase_to with
  | none => m
  | some t =>
    if 10 < |sig.soldier_coordinate.1 - t| then m else { m with chase_to := none }

/-- SoldierFSM.can_shoot, returned value: vertical gap at most 50, enemy on
the facing side, horizontal distance under shooting_range. -/
def can_shootB (m : SoldierFSM) (sig : Signals) : Bool :=
  if 50 < |sig.enemy_coordinate.2 - sig.soldier_coordinate.2| then false
  else if sig.soldier_facing_direction = RIGHT_FACING then
    decide (sig.soldier_coordinate.1 < sig.enemy_coordinate.1 ∧
      |sig.enemy_coordinate.1 - sig.soldier_coordinate.1| < m.shooting_range)
  else
    decide (sig.enemy_coordinate.1 < sig.soldier_coordinate.1 ∧
      |sig.enemy_coordinate.1 - sig.soldier_coordinate.1| < m.shooting_range)

/-- SoldierFSM.can_shoot, instance after evaluation: on true it records the
enemy x-coordinate as the chase target. -/
def can_shootS (m : SoldierFSM) (sig : Signals) : SoldierFSM :=
  if can_shootB m sig then { m with chase_to := some sig.enemy_coordinate.1 } else m

/-- SoldierFSM.can_melee, returned value. -/
def can_meleeB (m : SoldierFSM) (sig : Signals) : Bool :=
  if 50 < |sig.enemy_coordinate.2 - sig.soldier_coordinate.2| then false
  else decide (|sig.enemy_coordinate.1 - sig.soldier_coordinate.1| < m.melee_range)

/-- SoldierFSM.can_melee, instance after evaluation. -/
def can_meleeS (m : SoldierFSM) (sig : Signals) : SoldierFSM :=
  if can_meleeB m sig then { m with chase_to := some sig.enemy_coordinate.1 } else m

/-- SoldierFSM.finish_reloading, returned value: the prior reload_done flag. -/
def finish_reloadingB (m : SoldierFSM) : Bool :=
  m.reload_done

/-- SoldierFSM.finish_reloading, instance after evaluation: when the flag was
set it refills the magazine and clears the flag. -/
def finish_reloadingS (m : SoldierFSM) : SoldierFSM :=
  if m.reload_done then { m with current_mag := m.mag_size, reload_done := false } else m

/-- SoldierFSM.is_being_hit, returned value.  The source returns False when
the vertical gap exceeds 50, True when additionally the horizontal distance
is under melee_range, and otherwise falls through to `return enemy_hitting`,
so a melee animation at any horizontal distance (with small vertical gap)
counts as a hit. -/
def is_being_hitB (m : SoldierFSM) (sig : Signals) : Bool :=
  if sig.enemy_hitting then
    if 50 < |sig.enemy_coordinate.2 - sig.soldier_coordinate.2| then false
    else if |sig.enemy_coordinate.1 - sig.soldier_coordinate.1| < m.melee_range then true
    else sig.enemy_hitting
  else sig.enemy_hitting

/-- SoldierFSM.is_being_hit, instance after evaluation: is_recovered is
cleared only in the branch where the horizontal distance is under
melee_range. -/
def is_being_hitS (m : SoldierFSM) (sig : Signals) : SoldierFSM :=
  if sig.enemy_hitting then
    if 50 < |sig.enemy_coordinate.2 - sig.soldier_coordinate.2| then m
    else if |sig.enemy_coordinate.1 - sig.soldier_coordinate.1| < m.melee_range then
      { m with is_recovered := false }
    else m
  else m

/-
SoldierFSM.cycle: for the current state the guarded transitions are tried in
definition order and the first one whose condition holds fires; every guard
evaluated on the way runs its side effects, so the instance is threaded
through the evaluations.  One function per source state.
-/

/-- Transitions of cycle out of the idle state (soldier_fsm.py lines 94-102). -/
def cycleIdle (m : SoldierFSM) (sig : Signals) : SoldierFSM :=
  if enemy_deadB sig then setState m SState.at_ease else
  let m1 := is_being_hitS m sig
  if is_being_hitB m sig then setState m1 SState.hurt else
  let m2 := can_meleeS m1 sig
  if can_meleeB m1 sig then setState m2 SState.melee else
  if mag_emptyB m2 then setState m2 SState.reload else
  let m3 := can_shootS m2 sig
  if can_shootB m2 sig then setState m3 SState.shoot else
  let m4 := can_hearS m3 sig
  if can_hearB m3 sig then setState m4 SState.alert else
  let m5 := can_chaseS m4 sig
  if can_chaseB m4 sig then setState m5 SState.run else
  let m6 := can_patrolS m5 sig
  if can_patrolB m5 sig then setState m6 SState.walk else
  setState m6 SState.idle

/-- Transitions of cycle out of the walk state (soldier_fsm.py lines 103-112);
the unconditional fallback goes to at_ease. -/
def cycleWalk (m : SoldierFSM) (sig : Signals) : SoldierFSM :=
  if enemy_deadB sig then setState m SState.at_ease else
  let m1 := is_being_hitS m sig
  if is_being_hitB m sig then setState m1 SState.hurt else
  let m2 := can_meleeS m1 sig
  if can_meleeB m1 sig then setState m2 SState.melee else
  if mag_emptyB m2 then setState m2 SState.reload else
  let m3 := can_shootS m2 sig
  if can_shootB m2 sig then setState m3 SState.shoot else
  let m4 := can_hearS m3 sig
  if can_hearB m3 sig then setState m4 SState.alert else
  let m5 := can_chaseS m4 sig
  if can_chaseB m4 sig then setState m5 SState.run else
  let m6 := can_patrolS m5 sig
  if can_patrolB m5 sig then setState m6 SState.walk else
  if can_take_a_breakB m6 then setState m6 SState.idle else
  setState m6 SState.at_ease

/-- Transitions of cycle out of the run state (soldier_fsm.py lines 113-121). -/
def cycleRun (m : SoldierFSM) (sig : Signals) : SoldierFSM :=
  if enemy_deadB sig then setState m SState.at_ease else
  let m1 := is_being_hitS m sig
  if is_being_hitB m sig then setState m1 SState.hurt else
  let m2 := can_meleeS m1 sig
  if can_meleeB m1 sig then setState m2 SState.melee else
  if mag_emptyB m2 then setState m2 SState.reload else
  let m3 := can_shootS m2 sig
  if can_shootB m2 sig then setState m3 SState.shoot else
  let m4 := can_hearS m3 sig
  if can_hearB m3 sig then setState m4 SState.alert else
  let m5 := can_chaseS m4 sig
  if can_chaseB m4 sig then setState m5 SState.run else
  let m6 := can_patrolS m5 sig
  if can_patrolB m5 sig then setState m6 SState.walk else
  setState m6 SState.idle

/-- Transitions of cycle out of the shoot state (soldier_fsm.py lines 122-128). -/
def cycleShoot (m : SoldierFSM) (sig : Signals) : SoldierFSM :=
  if enemy_deadB sig then setState m SState.at_ease else
  let m1 := is_being_hitS m sig
  if is_being_hitB m sig then setState m1 SState.hurt else
  let m2 := can_meleeS m1 sig
  if can_meleeB m1 sig then setState m2 SState.melee else
  if mag_emptyB m2 then setState m2 SState.reload else
  let m3 := can_shootS m2 sig
  if can_shootB m2 sig then setState m3 SState.shoot else
  let m4 := can_chaseS m3 sig
  if can_chaseB m3 sig then setState m4 SState.run else
  setState m4 SState.idle

/-- Common tail of the melee transitions: chase then the idle fallback. -/
def cycleMeleeTail (m : SoldierFSM) (sig : Signals) : SoldierFSM :=
  let m1 := can_chaseS m sig
  if can_chaseB m sig then setState m1 SState.run else
  setState m1 SState.idle

/-- Transitions of cycle out of the melee state (soldier_fsm.py lines 129-135).
The reload transition carries the condition list [mag_empty, can_shoot]: the
conditions are checked in order with short circuiting, and when the combined
condition fails the following shoot transition evaluates can_shoot again. -/
def cycleMelee (m : SoldierFSM) (sig : Signals) : SoldierFSM :=
  if enemy_deadB sig then setState m SState.at_ease else
  let m1 := is_being_hitS m sig
  if is_being_hitB m sig then setState m1 SState.hurt else
  let m2 := can_meleeS m1 sig
  if can_meleeB m1 sig then setState m2 SState.melee else
  if mag_emptyB m2 then
    let m3 := can_shootS m2 sig
    if can_shootB m2 sig then setState m3 SState.reload else
    let m4 := can_shootS m3 sig
    if can_shootB m3 sig then setState m4 SState.shoot else
    cycleMeleeTail m4 sig
  else
    let m3 := can_shootS m2 sig
    if can_shootB m2 sig then setState m3 SState.shoot else
    cycleMeleeTail m3 sig

/-- Transitions of cycle out of the reload state (soldier_fsm.py lines 136-144). -/
def cycleReload (m : SoldierFSM) (sig : Signals) : SoldierFSM :=
  if enemy_deadB sig then setState m SState.at_ease else
  let m1 := is_being_hitS m sig
  if is_being_hitB m sig then setState m1 SState.hurt else
  let m2 := can_meleeS m1 sig
  if can_meleeB m1 sig then setState m2 SState.melee else
  let m3 := finish_reloadingS m2
  if finish_reloadingB m2 then setState m3 SState.idle else
  if mag_emptyB m3 then setState m3 SState.reload else
  let m4 := can_shootS m3 sig
  if can_shootB m3 sig then setState m4 SState.shoot else
  let m5 := can_hearS m4 sig
  if can_hearB m4 sig then setState m5 SState.alert else
  let m6 := can_chaseS m5 sig
  if can_chaseB m5 sig then setState m6 SState.run else
  setState m6 SState.idle

/-- Transitions of cycle out of the hurt state (soldier_fsm.py lines 145-148),
with the compound self-loop condition
(is_being_hit and can_melee) or not has_recovered evaluated left to right
with short circuiting. -/
def cycleHurt (m : SoldierFSM) (sig : Signals) : SoldierFSM :=
  if enemy_deadB sig then setState m SState.at_ease else
  if is_dyingB m then setState m SState.dead else
  let m1 := is_being_hitS m sig
  if is_being_hitB m sig then
    let m2 := can_meleeS m1 sig
    if can_meleeB m1 sig then setState m2 SState.hurt
    else if has_recoveredB m2 then setState m2 SState.idle
    else setState m2 SState.hurt
  else
    if has_recoveredB m1 then setState m1 SState.idle
    else setState m1 SState.hurt

/-- Transitions of cycle out of the alert state (soldier_fsm.py lines 149-158). -/
def cycleAlert (m : SoldierFSM) (sig : Signals) : SoldierFSM :=
  if enemy_deadB sig then setState m SState.at_ease else
  let m1 := is_being_hitS m sig
  if is_being_hitB m sig then setState m1 SState.hurt else
  let m2 := can_meleeS m1 sig
  if can_meleeB m1 sig then setState m2 SState.melee else
  if mag_emptyB m2 then setState m2 SState.reload else
  let m3 := can_shootS m2 sig
  if can_shootB m2 sig then setState m3 SState.shoot else
  let m4 := finish_alertS m3
  if finish_alertB m3 then setState m4 SState.idle else
  let m5 := can_hearS m4 sig
  if can_hearB m4 sig then setState m5 SState.alert else
  let m6 := can_chaseS m5 sig
  if can_chaseB m5 sig then setState m6 SState.run else
  let m7 := can_patrolS m6 sig
  if can_patrolB m6 sig then setState m7 SState.walk else
  setState m7 SState.idle

/-- SoldierFSM.cycle: dispatch on the current state; at_ease and dead carry
only their unconditional self-loops (soldier_fsm.py lines 159-160). -/
def cycle (m : SoldierFSM) (sig : Signals) : SoldierFSM :=
  match m.state with
  | SState.idle => cycleIdle m sig
  | SState.walk => cycleWalk m sig
  | SState.run => cycleRun m sig
  | SState.shoot => cycleShoot m sig
  | SState.reload => cycleReload m sig
  | SState.melee => cycleMelee m sig
  | SState.alert => cycleAlert m sig
  | SState.hurt => cycleHurt m sig
  | SState.dead => setState m SState.dead
  | SState.at_ease => setState m SState.at_ease

/-- A sequence of cycle calls. -/
def cycles (m : SoldierFSM) (sigs : List Signals) : SoldierFSM :=
  sigs.foldl cycle m

@[simp] theorem setState_state (m : SoldierFSM) (s : SState) :
    (setState m s).state = s := rfl

@[simp] theorem setState_mag (m : SoldierFSM) (s : SState) :
    (setState m s).current_mag = m.current_mag := rfl

@[simp] theorem setState_mag_size (m : SoldierFSM) (s : SState) :
    (setState m s).mag_size = m.mag_size := rfl

@[simp] theorem is_being_hitS_state (m : SoldierFSM) (sig : Signals) :
    (is_being_hitS m sig).state = m.state := by
  unfold is_being_hitS; split_ifs <;> rfl

@[simp] theorem is_being_hitS_mag (m : SoldierFSM) (sig : Signals) :
    (is_being_hitS m sig).current_mag = m.current_mag := by
  unfold is_being_hitS; split_ifs <;> rfl

@[simp] theorem is_being_hitS_mag_size (m : SoldierFSM) (sig : Signals) :
    (is_being_hitS m sig).mag_size = m.mag_size := by
  unfold is_being_hitS; split_ifs <;> rfl

@[simp] theorem is_being_hitS_reload_done (m : SoldierFSM) (sig : Signals) :
    (is_being_hitS m sig).reload_done = m.reload_done := by
  unfold is_being_hitS; split_ifs <;> rfl

@[simp] theorem can_meleeS_state (m : SoldierFSM) (sig : Signals) :
    (can_meleeS m sig).state = m.state := by
  unfold can_meleeS; split_ifs <;> rfl

@[simp] theorem can_meleeS_mag (m : SoldierFSM) (sig : Signals) :
    (can_meleeS m sig).current_mag = m.current_mag := by
  unfold can_meleeS; split_ifs <;> rfl

@[simp] theorem can_meleeS_mag_size (m : SoldierFSM) (sig : Signals) :
    (can_meleeS m sig).mag_size = m.mag_size := by
  unfold can_meleeS; split_ifs <;> rfl

@[simp] theorem can_meleeS_reload_done (m : SoldierFSM) (sig : Signals) :
    (can_meleeS m sig).reload_done = m.reload_done := by
  unfold can_meleeS; split_ifs <;> rfl

@[simp] theorem can_shootS_state (m : SoldierFSM) (sig : Signals) :
    (can_shootS m sig).state = m.state := by
  unfold can_shootS; split_ifs <;> rfl

@[simp] theorem can_shootS_mag (m : SoldierFSM) (sig : Signals) :
    (can_shootS m sig).current_mag = m.current_mag := by
  unfold can_shootS; split_ifs <;> rfl

@[simp] theorem can_shootS_mag_size (m : SoldierFSM) (sig : Signals) :
    (can_shootS m sig).mag_size = m.mag_size := by
  unfold can_shootS; split_ifs <;> rfl

@[simp] theorem can_hearS_state (m : SoldierFSM) (sig : Signals) :
    (can_hearS m sig).state = m.state := by
  unfold can_hearS; split_ifs <;> rfl

@[simp] theorem can_hearS_mag (m : SoldierFSM) (sig : Signals) :
    (can_hearS m sig).current_mag = m.current_mag := by
  unfold can_hearS; split_ifs <;> rfl

@[simp] theorem can_hearS_mag_size (m : SoldierFSM) (sig : Signals) :
    (can_hearS m sig).mag_size = m.mag_size := by
  unfold can_hearS; split_ifs <;> rfl

@[simp] theorem can_chaseS_state (m : SoldierFSM) (sig : Signals) :
    (can_chaseS m sig).state = m.state := by
  unfold can_chaseS
  rcases m.chase_to with _ | t
  · rfl
  · dsimp only
    split_ifs <;> rfl

@[simp] theorem can_chaseS_mag (m : SoldierFSM) (sig : Signals) :
    (can_chaseS m sig).current_mag = m.current_mag := by
  unfold can_chaseS
  rcases m.chase_to with _ | t
  · rfl
  · dsimp only
    split_ifs <;> rfl

@[simp] theorem can_chaseS_mag_size (m : SoldierFSM) (sig : Signals) :
    (can_chaseS m sig).mag_size = m.mag_size := by
  unfold can_chaseS
  rcases m.chase_to with _ | t
  · rfl
  · dsimp only
    split_ifs <;> rfl

@[simp] theorem can_patrolS_state (m : SoldierFSM) (sig : Signals) :
    (can_patrolS m sig).state = m.state := by
  unfold can_patrolS
  rcases m.patrol_checkpoints.getLast? with _ | c
  · rfl
  · dsimp only
    split_ifs <;> rfl

@[simp] theorem can_patrolS_mag (m : SoldierFSM) (sig : Signals) :
    (can_patrolS m sig).current_mag = m.current_mag := by
  unfold can_patrolS
  rcases m.patrol_checkpoints.getLast? with _ | c
  · rfl
  · dsimp only
    split_ifs <;> rfl

@[simp] theorem can_patrolS_mag_size (m : SoldierFSM) (sig : Signals) :
    (can_patrolS m sig).mag_size = m.mag_size := by
  unfold can_patrolS
  rcases m.patrol_checkpoints.getLast? with _ | c
  · rfl
  · dsimp only
    split_ifs <;> rfl

@[simp] theorem finish_alertS_state (m : SoldierFSM) :
    (finish_alertS m).state = m.state := by
  unfold finish_alertS; split_ifs <;> rfl

@[simp] theorem finish_alertS_mag (m : SoldierFSM) :
    (finish_alertS m).current_mag = m.current_mag := by
  unfold finish_alertS; split_ifs <;> rfl

@[simp] theorem finish_alertS_mag_size (m : SoldierFSM) :
    (finish_alertS m).mag_size = m.mag_size := by
  unfold finish_alertS; split_ifs <;> rfl

@[simp] theorem finish_reloadingS_state (m : SoldierFSM) :
    (finish_reloadingS m).state = m.state := by
  unfold finish_reloadingS; split_ifs <;> rfl

@[simp] theorem finish_reloadingS_mag_size (m : SoldierFSM) :
    (finish_reloadingS m).mag_size = m.mag_size := by
  unfold finish_reloadingS; split_ifs <;> rfl

theorem finish_reloadingS_mag_of_false (m : SoldierFSM) (h : m.reload_done = false) :
    finish_reloadingS m = m := by
  unfold finish_reloadingS; simp [h]

theorem mag_emptyB_iff (m : SoldierFSM) : mag_emptyB m = true ↔ m.current_mag = 0 := by
  simp [mag_emptyB]

theorem cycle_state_of_dead {m : SoldierFSM} (h : m.state = SState.dead) (sig : Signals) :
    (cycle m sig).state = SState.dead := by
  unfold cycle
  rw [h]
  rfl

theorem cycles_state_of_dead {m : SoldierFSM} (h : m.state = SState.dead)
    (sigs : List Signals) : (cycles m sigs).state = SState.dead := by
  induction sigs generalizing m with
  | nil => exact h
  | cons s rest ih =>
    have : cycles m (s :: rest) = cycles (cycle m s) rest := rfl
    rw [this]
    exact ih (cycle_state_of_dead h s)

theorem cycleIdle_state_ne_dead (m : SoldierFSM) (sig : Signals) :
    (cycleIdle m sig).state ≠ SState.dead := by
  simp only [cycleIdle]
  split_ifs <;> simp

theorem cycleWalk_state_ne_dead (m : SoldierFSM) (sig : Signals) :
    (cycleWalk m sig).state ≠ SState.dead := by
  simp only [cycleWalk]
  split_ifs <;> simp

theorem cycleRun_state_ne_dead (m : SoldierFSM) (sig : Signals) :
    (cycleRun m sig).state ≠ SState.dead := by
  simp only [cycleRun]
  split_ifs <;> simp

theorem cycleShoot_state_ne_dead (m : SoldierFSM) (sig : Signals) :
    (cycleShoot m sig).state ≠ SState.dead := by
  simp only [cycleShoot]
  split_ifs <;> simp

theorem cycleMelee_state_ne_dead (m : SoldierFSM) (sig : Signals) :
    (cycleMelee m sig).state ≠ SState.dead := by
  simp only [cycleMelee, cycleMeleeTail]
  split_ifs <;> simp

theorem cycleReload_state_ne_dead (m : SoldierFSM) (sig : Signals) :
    (cycleReload m sig).state ≠ SState.dead := by
  simp only [cycleReload]
  split_ifs <;> simp

theorem cycleAlert_state_ne_dead (m : SoldierFSM) (sig : Signals) :
    (cycleAlert m sig).state ≠ SState.dead := by
  simp only [cycleAlert]
  split_ifs <;> simp

/-- C1: from the idle state the enemy_dead guard is tried first, so whenever
the enemy hp is at most 0 the cycle transition out of idle goes to at_ease
and in particular never to shoot, even when can_shoot also holds. -/
theorem idle_enemy_dead_priority (m : SoldierFSM) (sig : Signals)
    (hs : m.state = SState.idle) (hd : sig.enemy_hp ≤ 0)
    (hcs : can_shootB m sig = true) :
    (cycle m sig).state = SState.at_ease ∧ (cycle m sig).state ≠ SState.shoot := by
  have hdB : enemy_deadB sig = true := by simp [enemy_deadB, hd]
  unfold cycle
  rw [hs]
  simp only [cycleIdle, hdB, if_true]
  simp

/-- Concrete instance for C1: soldier at the origin facing right, enemy at
x = 100 on the same height with hp 0, so enemy_dead and can_shoot both hold. -/
def mC1 : SoldierFSM := SoldierFSM.init 30 800 100 1000 20

/-- Concrete signals for C1. -/
def sigC1 : Signals :=
  { soldier_coordinate := (0, 0)
    soldier_facing_direction := 0
    enemy_coordinate := (100, 0)
    enemy_direction := 1
    enemy_hitting := false
    enemy_barking := false
    enemy_hp := 0 }

/-- Witness for C1 at a concrete input where enemy_dead and can_shoot are
both true. -/
theorem idle_enemy_dead_priority_witness :
    (cycle mC1 sigC1).state = SState.at_ease ∧ (cycle mC1 sigC1).state ≠ SState.shoot :=
  idle_enemy_dead_priority mC1 sigC1 (by rfl) (by decide) (by decide)

/-- Concrete instance for the C2 counterexample: a soldier constructed with
hp 0, sitting in the idle state. -/
def mC2 : SoldierFSM := SoldierFSM.init 0 800 100 1000 20

/-- Benign signals for the C2 counterexample: the enemy is alive, far away
and doing nothing. -/
def sigC2 : Signals :=
  { soldier_coordinate := (0, 0)
    soldier_facing_direction := 0
    enemy_coordinate := (2000, 2000)
    enemy_direction := 1
    enemy_hitting := false
    enemy_barking := false
    enemy_hp := 100 }

/-- C2 counterexample: with hp already 0 in the idle state, a benign cycle
call is a fixed point that leaves the machine in idle, so no sequence made of
such calls ever brings the machine to dead; only the hurt state tests
is_dying. -/
theorem hp_zero_idle_stays_idle :
    mC2.hp ≤ 0 ∧ mC2.state = SState.idle ∧ cycle mC2 sigC2 = mC2 ∧
      mC2.state ≠ SState.dead := by decide

/-- C2 (amended): once hp is at most 0 the machine reaches dead only through
the hurt state: a cycle from hurt with hp at most 0 and a live enemy goes to
dead; once in dead every sequence of cycle calls stays in dead; and no cycle
call from a state other than hurt or dead can produce dead. -/
theorem death_via_hurt_only (m : SoldierFSM) (sig : Signals) :
    (m.state = SState.hurt → m.hp ≤ 0 → 0 < sig.enemy_hp →
      (cycle m sig).state = SState.dead) ∧
    (m.state = SState.dead → ∀ sigs : List Signals,
      (cycles m sigs).state = SState.dead) ∧
    (m.state ≠ SState.hurt → m.state ≠ SState.dead →
      (cycle m sig).state ≠ SState.dead) := by
  refine ⟨?_, ?_, ?_⟩
  · intro hs hhp henemy
    have h1 : ¬(sig.enemy_hp ≤ 0) := by omega
    unfold cycle
    rw [hs]
    simp [cycleHurt, enemy_deadB, is_dyingB, h1, hhp]
  · intro hs sigs
    exact cycles_state_of_dead hs sigs
  · intro h1 h2
    unfold cycle
    cases hst : m.state
    · exact cycleIdle_state_ne_dead m sig
    · exact cycleWalk_state_ne_dead m sig
    · exact cycleRun_state_ne_dead m sig
    · exact cycleShoot_state_ne_dead m sig
    · exact cycleReload_state_ne_dead m sig
    · exact cycleMelee_state_ne_dead m sig
    · exact cycleAlert_state_ne_dead m sig
    · exact absurd hst h1
    · exact absurd hst h2
    · simp

/-- Concrete instance for the C2 amended witness: a soldier in the hurt state
with hp 0 facing a live enemy. -/
def mC2w : SoldierFSM :=
  { SoldierFSM.init 0 800 100 1000 20 with state := SState.hurt }

/-- Signals for the C2 amended witness. -/
def sigC2w : Signals :=
  { soldier_coordinate := (0, 0)
    soldier_facing_direction := 0
    enemy_coordinate := (2000, 2000)
    enemy_direction := 1
    enemy_hitting := false
    enemy_barking := false
    enemy_hp := 100 }

/-- Witness for the amended C2. -/
theorem death_via_hurt_only_witness : (cycle mC2w sigC2w).state = SState.dead :=
  (death_via_hurt_only mC2w sigC2w).1 (by rfl) (by decide) (by decide)

/-- C3: the dead state is absorbing: from dead, any sequence of cycle calls
with any signal values leaves the machine in dead. -/
theorem dead_terminal (m : SoldierFSM) (sigs : List Signals)
    (h : m.state = SState.dead) : (cycles m sigs).state = SState.dead :=
  cycles_state_of_dead h sigs

/-- Concrete dead soldier for the C3 witness. -/
def mC3 : SoldierFSM :=
  { SoldierFSM.init 30 800 100 1000 20 with state := SState.dead }

/-- Aggressive signals for the C3 witness: the enemy hits, barks and stands
on top of the soldier, yet dead absorbs. -/
def sigC3 : Signals :=
  { soldier_coordinate := (0, 0)
    soldier_facing_direction := 0
    enemy_coordinate := (10, 0)
    enemy_direction := 1
    enemy_hitting := true
    enemy_barking := true
    enemy_hp := 100 }

/-- Witness for C3. -/
theorem dead_terminal_witness : (cycles mC3 [sigC3, sigC3, sigC3]).state = SState.dead :=
  dead_terminal mC3 [sigC3, sigC3, sigC3] (by rfl)

/-- Concrete instance for C4: a soldier in the walk state with no patrol
checkpoints, no break flag, full magazine and no combat or chase stimulus. -/
def mC4 : SoldierFSM :=
  { SoldierFSM.init 30 800 100 1000 20 with state := SState.walk }

/-- Benign signals for C4: live enemy, far away, silent. -/
def sigC4 : Signals :=
  { soldier_coordinate := (0, 0)
    soldier_facing_direction := 0
    enemy_coordinate := (2000, 2000)
    enemy_direction := 1
    enemy_hitting := false
    enemy_barking := false
    enemy_hp := 100 }

/-- C4: the unconditional fallback of the walk state in the source is
walk.to(at_ease), so with every guard false the cycle call from walk lands in
at_ease, not in walk or idle as the spec table states. -/
theorem walk_fallback_goes_at_ease :
    (cycle mC4 sigC4).state = SState.at_ease ∧
    (cycle mC4 sigC4).state ≠ SState.walk ∧
    (cycle mC4 sigC4).state ≠ SState.idle := by decide

/-- Concrete instance for C5: melee_range 100 and is_recovered set. -/
def mC5 : SoldierFSM := SoldierFSM.init 30 800 100 1000 20

/-- Signals for C5: the enemy executes a melee at horizontal distance 200,
twice the melee range, on the same height. -/
def sigC5 : Signals :=
  { soldier_coordinate := (0, 0)
    soldier_facing_direction := 0
    enemy_coordinate := (200, 0)
    enemy_direction := 1
    enemy_hitting := true
    enemy_barking := false
    enemy_hp := 100 }

/-- C5: is_being_hit falls through to `return enemy_hitting`, so with the
enemy meleeing at distance 200 (melee range 100, vertical gap 0) it returns
true while the claim requires false, and it does not clear is_recovered even
though it returned true. -/
theorem is_being_hit_beyond_melee_range :
    is_being_hitB mC5 sigC5 = true ∧
    (is_being_hitS mC5 sigC5).is_recovered = true ∧
    ¬(|sigC5.enemy_coordinate.1 - sigC5.soldier_coordinate.1| < mC5.melee_range) := by
  decide

/-- C6: can_shoot returns true exactly when the vertical gap is at most 50,
the enemy is on the facing side and the horizontal distance is strictly
under shooting_range, and whenever it returns true the evaluated instance
records the enemy x-coordinate as the chase target. -/
theorem can_shoot_spec (m : SoldierFSM) (sig : Signals) :
    (can_shootB m sig = true ↔
      |sig.enemy_coordinate.2 - sig.soldier_coordinate.2| ≤ 50 ∧
      (if sig.soldier_facing_direction = RIGHT_FACING
       then sig.soldier_coordinate.1 < sig.enemy_coordinate.1
       else sig.enemy_coordinate.1 < sig.soldier_coordinate.1) ∧
      |sig.enemy_coordinate.1 - sig.soldier_coordinate.1| < m.shooting_range) ∧
    (can_shootB m sig = true →
      can_shootS m sig = { m with chase_to := some sig.enemy_coordinate.1 }) := by
  constructor
  · unfold can_shootB
    split_ifs with h1 h2
    · refine iff_of_false (by simp) ?_
      rintro ⟨ha, -, -⟩
      exact absurd ha (not_le.mpr h1)
    · refine iff_of_false (by simp) ?_
      rintro ⟨ha, -, -⟩
      exact absurd ha (not_le.mpr h1)
    · have ha := not_lt.mp h1
      simp only [decide_eq_true_eq]
      constructor
      · rintro ⟨hl, hr⟩
        exact ⟨ha, hl, hr⟩
      · rintro ⟨-, hl, hr⟩
        exact ⟨hl, hr⟩
    · have ha := not_lt.mp h1
      simp only [decide_eq_true_eq]
      constructor
      · rintro ⟨hl, hr⟩
        exact ⟨ha, hl, hr⟩
      · rintro ⟨-, hl, hr⟩
        exact ⟨hl, hr⟩
  · intro h
    unfold can_shootS
    simp [h]

/-- Concrete instance for the C6 witness. -/
def mC6 : SoldierFSM := SoldierFSM.init 30 800 100 1000 20

/-- Signals for the C6 witness: facing right, enemy at x = 300, dy = 10. -/
def sigC6 : Signals :=
  { soldier_coordinate := (0, 0)
    soldier_facing_direction := 0
    enemy_coordinate := (300, 10)
    enemy_direction := 1
    enemy_hitting := false
    enemy_barking := false
    enemy_hp := 100 }

/-- Witness for C6: the side effect fires at a concrete shootable input. -/
theorem can_shoot_spec_witness :
    can_shootS mC6 sigC6 = { mC6 with chase_to := some 300 } :=
  (can_shoot_spec mC6 sigC6).2 (by decide)

/-- The player state touched by Banjo.damaged (banjo_player.py): health,
the dead latch and the current animation label. -/
structure BanjoPlayer where
  hp : Int
  is_dead : Bool
  current_animation : String
deriving DecidableEq, Repr

/-- Banjo.damaged: no-op when already dying or dead; otherwise subtract the
damage and clamp to 0 while switching to the death animation. -/
def BanjoPlayer.damaged (b : BanjoPlayer) (damage : Int) : BanjoPlayer :=
  if b.current_animation = "death" || b.is_dead then b
  else if b.hp - damage ≤ 0 then
    { b with hp := 0, current_animation := "death" }
  else { b with hp := b.hp - damage }

/-- C10: damaged is a no-op once the animation is death or the dead latch is
set; otherwise it subtracts the damage, clamping to exactly 0 and switching
the animation to death when the result is not positive; hp stays
nonnegative. -/
theorem damaged_spec (b : BanjoPlayer) (d : Int) :
    ((b.current_animation = "death" ∨ b.is_dead = true) → b.damaged d = b) ∧
    (¬(b.current_animation = "death" ∨ b.is_dead = true) →
      (b.hp - d ≤ 0 →
        (b.damaged d).hp = 0 ∧ (b.damaged d).current_animation = "death") ∧
      (0 < b.hp - d →
        (b.damaged d).hp = b.hp - d ∧
          (b.damaged d).current_animation = b.current_animation)) ∧
    (0 ≤ b.hp → 0 ≤ (b.damaged d).hp) := by
  unfold BanjoPlayer.damaged
  have hcond : (decide (b.current_animation = "death") || b.is_dead) = true ↔
      (b.current_animation = "death" ∨ b.is_dead = true) := by simp
  refine ⟨?_, ?_, ?_⟩
  · intro h
    rw [if_pos (hcond.mpr h)]
  · intro h
    rw [if_neg (fun hc => h (hcond.mp hc))]
    constructor
    · intro hle
      rw [if_pos hle]
      exact ⟨rfl, rfl⟩
    · intro hgt
      rw [if_neg (by omega)]
      exact ⟨rfl, rfl⟩
  · intro hhp
    split_ifs with h1 h2
    · exact hhp
    · show (0 : Int) ≤ 0
      omega
    · show 0 ≤ b.hp - d
      omega

@[simp] theorem can_shootB_after_can_shootS (m : SoldierFSM) (sig : Signals) :
    can_shootB (can_shootS m sig) sig = can_shootB m sig := by
  unfold can_shootS
  split_ifs <;> rfl

theorem cycleIdle_mag (m : SoldierFSM) (sig : Signals) :
    (cycleIdle m sig).current_mag = m.current_mag ∧
    (cycleIdle m sig).mag_size = m.mag_size ∧
    ((cycleIdle m sig).state = SState.shoot → m.current_mag ≠ 0) := by
  simp only [cycleIdle]
  split_ifs <;> simp_all [mag_emptyB]

theorem cycleWalk_mag (m : SoldierFSM) (sig : Signals) :
    (cycleWalk m sig).current_mag = m.current_mag ∧
    (cycleWalk m sig).mag_size = m.mag_size ∧
    ((cycleWalk m sig).state = SState.shoot → m.current_mag ≠ 0) := by
  simp only [cycleWalk]
  split_ifs <;> simp_all [mag_emptyB]

theorem cycleRun_mag (m : SoldierFSM) (sig : Signals) :
    (cycleRun m sig).current_mag = m.current_mag ∧
    (cycleRun m sig).mag_size = m.mag_size ∧
    ((cycleRun m sig).state = SState.shoot → m.current_mag ≠ 0) := by
  simp only [cycleRun]
  split_ifs <;> simp_all [mag_emptyB]

theorem cycleShoot_mag (m : SoldierFSM) (sig : Signals) :
    (cycleShoot m sig).current_mag = m.current_mag ∧
    (cycleShoot m sig).mag_size = m.mag_size ∧
    ((cycleShoot m sig).state = SState.shoot → m.current_mag ≠ 0) := by
  simp only [cycleShoot]
  split_ifs <;> simp_all [mag_emptyB]

theorem cycleMelee_mag (m : SoldierFSM) (sig : Signals) :
    (cycleMelee m sig).current_mag = m.current_mag ∧
    (cycleMelee m sig).mag_size = m.mag_size ∧
    ((cycleMelee m sig).state = SState.shoot → m.current_mag ≠ 0) := by
  simp only [cycleMelee, cycleMeleeTail]
  split_ifs <;> simp_all [mag_emptyB]

theorem cycleAlert_mag (m : SoldierFSM) (sig : Signals) :
    (cycleAlert m sig).current_mag = m.current_mag ∧
    (cycleAlert m sig).mag_size = m.mag_size ∧
    ((cycleAlert m sig).state = SState.shoot → m.current_mag ≠ 0) := by
  simp only [cycleAlert]
  split_ifs <;> simp_all [mag_emptyB]

theorem cycleHurt_mag (m : SoldierFSM) (sig : Signals) :
    (cycleHurt m sig).current_mag = m.current_mag ∧
    (cycleHurt m sig).mag_size = m.mag_size ∧
    ((cycleHurt m sig).state = SState.shoot → m.current_mag ≠ 0) := by
  simp only [cycleHurt]
  split_ifs <;> simp_all [mag_emptyB]

theorem cycleReload_mag (m : SoldierFSM) (sig : Signals) :
    ((cycleReload m sig).current_mag = m.current_mag ∨
      (m.reload_done = true ∧ (cycleReload m sig).current_mag = m.mag_size)) ∧
    (cycleReload m sig).mag_size = m.mag_size ∧
    ((cycleReload m sig).state = SState.shoot →
      m.current_mag ≠ 0 ∧ (cycleReload m sig).current_mag = m.current_mag) := by
  simp only [cycleReload]
  split_ifs <;> simp_all [mag_emptyB, finish_reloadingB, finish_reloadingS]

/-- Over one cycle call the magazine either stays unchanged or, exactly when
the machine sits in reload with the reload_done flag set, is refilled to
mag_size; the magazine size never changes; and a cycle call can only land in
the shoot state when the magazine it tested was nonempty and untouched. -/
theorem cycle_mag (m : SoldierFSM) (sig : Signals) :
    ((cycle m sig).current_mag = m.current_mag ∨
      (m.state = SState.reload ∧ m.reload_done = true ∧
        (cycle m sig).current_mag = m.mag_size)) ∧
    (cycle m sig).mag_size = m.mag_size ∧
    ((cycle m sig).state = SState.shoot →
      m.current_mag ≠ 0 ∧ (cycle m sig).current_mag = m.current_mag) := by
  unfold cycle
  cases hst : m.state
  case idle =>
    obtain ⟨a, b, c⟩ := cycleIdle_mag m sig
    exact ⟨Or.inl a, b, fun hs => ⟨c hs, a⟩⟩
  case walk =>
    obtain ⟨a, b, c⟩ := cycleWalk_mag m sig
    exact ⟨Or.inl a, b, fun hs => ⟨c hs, a⟩⟩
  case run =>
    obtain ⟨a, b, c⟩ := cycleRun_mag m sig
    exact ⟨Or.inl a, b, fun hs => ⟨c hs, a⟩⟩
  case shoot =>
    obtain ⟨a, b, c⟩ := cycleShoot_mag m sig
    exact ⟨Or.inl a, b, fun hs => ⟨c hs, a⟩⟩
  case reload =>
    obtain ⟨a, b, c⟩ := cycleReload_mag m sig
    refine ⟨?_, b, c⟩
    rcases a with h | ⟨h1, h2⟩
    · exact Or.inl h
    · exact Or.inr ⟨rfl, h1, h2⟩
  case melee =>
    obtain ⟨a, b, c⟩ := cycleMelee_mag m sig
    exact ⟨Or.inl a, b, fun hs => ⟨c hs, a⟩⟩
  case alert =>
    obtain ⟨a, b, c⟩ := cycleAlert_mag m sig
    exact ⟨Or.inl a, b, fun hs => ⟨c hs, a⟩⟩
  case hurt =>
    obtain ⟨a, b, c⟩ := cycleHurt_mag m sig
    exact ⟨Or.inl a, b, fun hs => ⟨c hs, a⟩⟩
  case dead =>
    refine ⟨Or.inl rfl, rfl, fun hs => ?_⟩
    simp [setState] at hs
  case at_ease =>
    refine ⟨Or.inl rfl, rfl, fun hs => ?_⟩
    simp [setState] at hs

/-- The ammunition decrement performed by Soldier1.shoot (soldier_1.py) on
the firing frame of the shoot animation. -/
def shootDec (m : SoldierFSM) : SoldierFSM :=
  { m with current_mag := m.current_mag - 1 }

/-- The soldier FSM states reachable through the operations of the
repository: construction (with a nonnegative magazine size, as every soldier
variant uses a positive constant), cycle calls with arbitrary signals, the
shoot-animation ammo decrement which the controller always follows with the
cycle call of the same update tick (soldier_1.py update runs update_animation
before update_state), and the external field writes performed by the
controller and the platoon (checkpoints, chase target, one-shot flags,
recovery, break clearing, clamped damage). -/
inductive Reachable : SoldierFSM → Prop
  | init (hp sr mr hr ms : Int) (hms : 0 ≤ ms) :
      Reachable (SoldierFSM.init hp sr mr hr ms)
  | step_cycle (m : SoldierFSM) (sig : Signals) (h : Reachable m) :
      Reachable (cycle m sig)
  | step_shoot (m : SoldierFSM) (sig : Signals) (h : Reachable m)
      (hs : m.state = SState.shoot) : Reachable (cycle (shootDec m) sig)
  | step_checkpoints (m : SoldierFSM) (l : List Int) (h : Reachable m) :
      Reachable { m with patrol_checkpoints := l }
  | step_chase (m : SoldierFSM) (t : Int) (h : Reachable m) :
      Reachable { m with chase_to := some t }
  | step_reload_done (m : SoldierFSM) (h : Reachable m) :
      Reachable { m with reload_done := true }
  | step_alert_done (m : SoldierFSM) (h : Reachable m) :
      Reachable { m with alert_done := true }
  | step_recovered (m : SoldierFSM) (h : Reachable m) :
      Reachable { m with is_recovered := true }
  | step_break_over (m : SoldierFSM) (h : Reachable m) :
      Reachable { m with take_a_break := false }
  | step_damaged (m : SoldierFSM) (d : Int) (h : Reachable m) :
      Reachable { m with hp := max 0 (m.hp - d) }

/-- The reachable-state magazine invariant: the magazine count and size are
nonnegative and the machine only sits in shoot with at least one round. -/
theorem reachable_mag {m : SoldierFSM} (h : Reachable m) :
    0 ≤ m.current_mag ∧ 0 ≤ m.mag_size ∧
      (m.state = SState.shoot → 1 ≤ m.current_mag) := by
  induction h with
  | init hp sr mr hr ms hms =>
    refine ⟨hms, hms, fun hs => ?_⟩
    simp [SoldierFSM.init] at hs
  | step_cycle m sig h ih =>
    obtain ⟨i1, i2, i3⟩ := ih
    obtain ⟨c1, c2, c3⟩ := cycle_mag m sig
    refine ⟨?_, ?_, ?_⟩
    · rcases c1 with he | ⟨-, -, he⟩ <;> omega
    · omega
    · intro hs
      obtain ⟨hne, heq⟩ := c3 hs
      omega
  | step_shoot m sig h hs ih =>
    obtain ⟨i1, i2, i3⟩ := ih
    have h1 : 1 ≤ m.current_mag := i3 hs
    obtain ⟨c1, c2, c3⟩ := cycle_mag (shootDec m) sig
    have e1 : (shootDec m).current_mag = m.current_mag - 1 := rfl
    have e2 : (shootDec m).mag_size = m.mag_size := rfl
    refine ⟨?_, ?_, ?_⟩
    · rcases c1 with he | ⟨-, -, he⟩ <;> omega
    · omega
    · intro hsh
      obtain ⟨hne, heq⟩ := c3 hsh
      omega
  | step_checkpoints m l h ih => exact ih
  | step_chase m t h ih => exact ih
  | step_reload_done m h ih => exact ih
  | step_alert_done m h ih => exact ih
  | step_recovered m h ih => exact ih
  | step_break_over m h ih => exact ih
  | step_damaged m d h ih => exact ih

/-- C7: in every reachable soldier state the magazine count is nonnegative
(and positive whenever the machine sits in shoot, reload being forced at 0);
finish_reloading returns the prior reload_done flag, refills the magazine to
mag_size and clears the flag exactly when it was set, and is the identity
otherwise; the shoot decrement never increases the magazine; and a cycle call
changes the magazine only by refilling it to mag_size from reload with
reload_done set. -/
theorem ammo_invariant :
    (∀ m : SoldierFSM, Reachable m →
      0 ≤ m.current_mag ∧ (m.state = SState.shoot → 1 ≤ m.current_mag)) ∧
    (∀ m : SoldierFSM, finish_reloadingB m = m.reload_done) ∧
    (∀ m : SoldierFSM, m.reload_done = true →
      finish_reloadingS m =
        { m with current_mag := m.mag_size, reload_done := false }) ∧
    (∀ m : SoldierFSM, m.reload_done = false → finish_reloadingS m = m) ∧
    (∀ m : SoldierFSM, (shootDec m).current_mag ≤ m.current_mag) ∧
    (∀ (m : SoldierFSM) (sig : Signals),
      (cycle m sig).current_mag = m.current_mag ∨
        (m.state = SState.reload ∧ m.reload_done = true ∧
          (cycle m sig).current_mag = m.mag_size)) := by
  refine ⟨?_, ?_, ?_, ?_, ?_, ?_⟩
  · intro m h
    obtain ⟨a, -, c⟩ := reachable_mag h
    exact ⟨a, c⟩
  · intro m
    rfl
  · intro m h
    unfold finish_reloadingS
    simp [h]
  · intro m h
    unfold finish_reloadingS
    simp [h]
  · intro m
    show m.current_mag - 1 ≤ m.current_mag
    omega
  · intro m sig
    exact (cycle_mag m sig).1

/-- Concrete soldier for the C7 witness. -/
def mC7 : SoldierFSM := SoldierFSM.init 30 800 100 1000 20

/-- Concrete reloading soldier for the C7 witness. -/
def mC7r : SoldierFSM := { mC7 with current_mag := 0, reload_done := true }

/-- Witness for C7: a freshly constructed soldier is reachable with a
nonnegative magazine, and a finished reload refills the magazine. -/
theorem ammo_invariant_witness :
    0 ≤ mC7.current_mag ∧
    finish_reloadingS mC7r =
      { mC7r with current_mag := mC7r.mag_size, reload_done := false } :=
  ⟨(ammo_invariant.1 mC7 (Reachable.init 30 800 100 1000 20 (by decide))).1,
   ammo_invariant.2.2.1 mC7r rfl⟩

/-- Soldier.calculate_accuracy (soldier_interface.py): Python float
arithmetic embedded over the exact rationals. -/
def calculate_accuracy (accuracy shooting_range : ℚ) (distance : ℚ) : ℚ :=
  1 - (1 - accuracy) * (distance / shooting_range) ^ 2

/-- C8: the accuracy curve equals 1 - (1 - base) * (d / range)^2; for base
accuracy in [0, 1] and positive range it is exactly 1 at distance 0, exactly
the base accuracy at distance = range, and non-increasing on [0, range]. -/
theorem calculate_accuracy_spec (a r : ℚ) (h0 : 0 ≤ a) (h1 : a ≤ 1) (hr : 0 < r) :
    calculate_accuracy a r 0 = 1 ∧
    calculate_accuracy a r r = a ∧
    (∀ d1 d2 : ℚ, 0 ≤ d1 → d1 ≤ d2 → d2 ≤ r →
      calculate_accuracy a r d2 ≤ calculate_accuracy a r d1) := by
  refine ⟨?_, ?_, ?_⟩
  · unfold calculate_accuracy
    simp
  · unfold calculate_accuracy
    rw [div_self (ne_of_gt hr)]
    ring
  · intro d1 d2 hd1 hd12 hd2r
    unfold calculate_accuracy
    have h2 : 0 ≤ d1 / r := div_nonneg hd1 (le_of_lt hr)
    have h3 : d1 / r ≤ d2 / r := (div_le_div_right hr).mpr hd12
    have key : (d1 / r) ^ 2 ≤ (d2 / r) ^ 2 := pow_le_pow_left h2 h3 2
    have h1a : 0 ≤ 1 - a := by linarith
    have hmul := mul_le_mul_of_nonneg_left key h1a
    linarith

/-- Witness for C8 at base accuracy 1/2 and range 500, with monotonicity
instantiated between distances 0 and 500. -/
theorem calculate_accuracy_spec_witness :
    calculate_accuracy (1/2) 500 0 = 1 ∧
    calculate_accuracy (1/2) 500 500 = 1/2 ∧
    calculate_accuracy (1/2) 500 500 ≤ calculate_accuracy (1/2) 500 0 := by
  obtain ⟨w1, w2, w3⟩ :=
    calculate_accuracy_spec (1/2) 500 one_half_pos.le one_half_lt_one.le (by simp)
  exact ⟨w1, w2, w3 0 500 le_rfl (by simp) le_rfl⟩

/-- Platoon.converge (platoon.py): every soldier's chase target is set to
the broadcast position plus a per-soldier random jitter; the random.randint
draws are modelled by the stream js, consumed from index c on. -/
def converge (js : Nat → Int) (t : Int) : Nat → List SoldierFSM → List SoldierFSM
  | _, [] => []
  | c, m :: rest => { m with chase_to := some (t + js c) } :: converge js t (c + 1) rest

/-- The loop of Platoon.shots_fired: the soldier states are read from the
original list (converge never changes them) while each shooting soldier's
chase target is read from the current, possibly already re-converged list;
a shooting soldier without a chase target is the TypeError path of the
source, modelled as none. -/
def shotsGo (js : Nat → Int) :
    List SState → Nat → Nat → List SoldierFSM → Option (List SoldierFSM)
  | [], _, _, cur => some cur
  | st :: rest, i, c, cur =>
    if st = SState.shoot then
      match cur[i]? with
      | none => none
      | some mi =>
        match mi.chase_to with
        | none => none
        | some t => shotsGo js rest (i + 1) (c + cur.length) (converge js t c cur)
    else shotsGo js rest (i + 1) c cur

/-- Platoon.shots_fired: converge on the chase target of every soldier whose
current state is shoot, in list order. -/
def shots_fired (js : Nat → Int) (soldiers : List SoldierFSM) :
    Option (List SoldierFSM) :=
  shotsGo js (soldiers.map SoldierFSM.state) 0 0 soldiers

theorem shotsGo_skip (js : Nat → Int) (sts : List SState) (i c : Nat)
    (cur : List SoldierFSM) (h : ∀ st ∈ sts, st ≠ SState.shoot) :
    shotsGo js sts i c cur = some cur := by
  induction sts generalizing i with
  | nil => rfl
  | cons st rest ih =>
    have hst : st ≠ SState.shoot := h st (List.mem_cons_self st rest)
    simp only [shotsGo]
    rw [if_neg hst]
    exact ih (i + 1) (fun s hs => h s (List.mem_cons_of_mem st hs))

theorem shotsGo_append_skip (js : Nat → Int) (sts1 sts2 : List SState) (i c : Nat)
    (cur : List SoldierFSM) (h : ∀ st ∈ sts1, st ≠ SState.shoot) :
    shotsGo js (sts1 ++ sts2) i c cur = shotsGo js sts2 (i + sts1.length) c cur := by
  induction sts1 generalizing i with
  | nil => simp
  | cons st rest ih =>
    have hst : st ≠ SState.shoot := h st (List.mem_cons_self st rest)
    rw [List.cons_append]
    simp only [shotsGo]
    rw [if_neg hst]
    rw [ih (i + 1) (fun s hs => h s (List.mem_cons_of_mem st hs))]
    have harith : i + 1 + rest.length = i + (st :: rest).length := by
      simp only [List.length_cons]
      omega
    rw [harith]

theorem converge_chase (js : Nat → Int) (t : Int) (c : Nat) (l : List SoldierFSM)
    (m : SoldierFSM) (hm : m ∈ converge js t c l) :
    ∃ k, m.chase_to = some (t + js k) := by
  induction l generalizing c with
  | nil => cases hm
  | cons a rest ih =>
    simp only [converge] at hm
    rcases List.mem_cons.mp hm with h | h
    · exact ⟨c, by rw [h]⟩
    · exact ih (c + 1) h

theorem get_append_mid {α : Type} (l1 l2 : List α) (a : α) :
    (l1 ++ a :: l2)[l1.length]? = some a := by
  induction l1 with
  | nil => simp
  | cons h t ih => simpa using ih

theorem shotsGo_cons_shoot (js : Nat → Int) (st : SState) (rest : List SState)
    (i c : Nat) (cur : List SoldierFSM) (mi : SoldierFSM) (t : Int)
    (hst : st = SState.shoot) (hmi : cur[i]? = some mi)
    (ht : mi.chase_to = some t) :
    shotsGo js (st :: rest) i c cur =
      shotsGo js rest (i + 1) (c + cur.length) (converge js t c cur) := by
  subst hst
  simp [shotsGo, hmi, ht]

/-- Constant jitter stream for the C9 counterexample: every draw is 300,
a legal random.randint(-300, 300) outcome. -/
def js9 : Nat → Int := fun _ => 300

/-- A soldier in the shoot state with chase target 800. -/
def soldier9 : SoldierFSM :=
  { SoldierFSM.init 30 800 100 1000 20 with
    state := SState.shoot, chase_to := some 800 }

/-- Two-soldier platoon, both shooting at chase target 800. -/
def platoon9 : List SoldierFSM := [soldier9, soldier9]

/-- C9 counterexample: both platoon members are in shoot with chase target
800 and every jitter drawn is 300, within the symmetric interval, yet after
shots_fired both chase targets are 1400, outside [800 - 300, 800 + 300]:
the second shooter's target was itself re-jittered before being broadcast,
so the jitters compound. -/
theorem shots_fired_compounds_jitter :
    platoon9.map SoldierFSM.state = [SState.shoot, SState.shoot] ∧
    platoon9.map SoldierFSM.chase_to = [some 800, some 800] ∧
    (shots_fired js9 platoon9).map (List.map SoldierFSM.chase_to) =
      some [some 1400, some 1400] ∧
    ¬((1400 : Int) ≤ 800 + 300) := by decide

/-- C9 (amended): when exactly one platoon member is in the shoot state, with
chase target x, and every jitter draw lies in [-300, 300], shots_fired
succeeds and every soldier's chase target ends within [x - 300, x + 300]. -/
theorem squad_convergence_single_shooter (js : Nat → Int)
    (pre post : List SoldierFSM) (shooter : SoldierFSM) (x : Int)
    (hjs : ∀ n, -300 ≤ js n ∧ js n ≤ 300)
    (hpre : ∀ m ∈ pre, m.state ≠ SState.shoot)
    (hpost : ∀ m ∈ post, m.state ≠ SState.shoot)
    (hst : shooter.state = SState.shoot)
    (hch : shooter.chase_to = some x) :
    ∃ out, shots_fired js (pre ++ shooter :: post) = some out ∧
      ∀ m ∈ out, ∃ t, m.chase_to = some t ∧ x - 300 ≤ t ∧ t ≤ x + 300 := by
  have hpre2 : ∀ st ∈ pre.map SoldierFSM.state, st ≠ SState.shoot := by
    intro st hstm
    obtain ⟨m, hm, rfl⟩ := List.mem_map.mp hstm
    exact hpre m hm
  have hpost2 : ∀ st ∈ post.map SoldierFSM.state, st ≠ SState.shoot := by
    intro st hstm
    obtain ⟨m, hm, rfl⟩ := List.mem_map.mp hstm
    exact hpost m hm
  refine ⟨converge js x 0 (pre ++ shooter :: post), ?_, ?_⟩
  · unfold shots_fired
    rw [List.map_append, List.map_cons]
    rw [shotsGo_append_skip js (pre.map SoldierFSM.state) _ 0 0 _ hpre2]
    have hget : (pre ++ shooter :: post)[0 + (pre.map SoldierFSM.state).length]? =
        some shooter := by
      simp only [List.length_map, Nat.zero_add]
      exact get_append_mid pre post shooter
    rw [shotsGo_cons_shoot js shooter.state (post.map SoldierFSM.state)
      (0 + (pre.map SoldierFSM.state).length) 0 (pre ++ shooter :: post)
      shooter x hst hget hch]
    exact shotsGo_skip js _ _ _ _ hpost2
  · intro m hm
    obtain ⟨k, hk⟩ := converge_chase js x 0 _ m hm
    obtain ⟨hlo, hhi⟩ := hjs k
    exact ⟨x + js k, hk, by omega, by omega⟩

/-- Constant jitter stream for the C9 witness, every draw 250. -/
def jsW : Nat → Int := fun _ => 250

/-- The single shooting soldier of the C9 witness, chase target 800. -/
def shooterW : SoldierFSM :=
  { SoldierFSM.init 30 800 100 1000 20 with
    state := SState.shoot, chase_to := some 800 }

/-- An idle platoon mate for the C9 witness. -/
def preW : SoldierFSM := SoldierFSM.init 30 800 100 1000 20

/-- A walking platoon mate for the C9 witness. -/
def postW : SoldierFSM :=
  { SoldierFSM.init 30 800 100 1000 20 with state := SState.walk }

/-- Witness for the amended C9: three soldiers, one shooting at 800. -/
theorem squad_convergence_single_shooter_witness :
    ∃ out, shots_fired jsW ([preW] ++ shooterW :: [postW]) = some out ∧
      ∀ m ∈ out, ∃ t, m.chase_to = some t ∧ 800 - 300 ≤ t ∧ t ≤ 800 + 300 :=
  squad_convergence_single_shooter jsW [preW] [postW] shooterW 800
    (by
      intro n
      show (-300 : Int) ≤ 250 ∧ (250 : Int) ≤ 300
      exact ⟨by decide, by decide⟩)
    (by decide) (by decide) (by decide) (by decide)

/-- Concrete player for the C10 witness. -/
def bC10 : BanjoPlayer := { hp := 100, is_dead := false, current_animation := "idle" }

/-- Witness for C10: a live player at 100 hp taking 150 damage is clamped to
0 and switched to the death animation. -/
theorem damaged_spec_witness :
    (bC10.damaged 150).hp = 0 ∧ (bC10.damaged 150).current_animation = "death" :=
  ((damaged_spec bC10 150).2.1 (by decide)).1 (by decide)

end Banjo
